import Mathlib

/-!
Shallow embedding of `src/web/extension/webpack.config.js` from the ruffle
repository: the exported webpack configuration function for the browser
extension, together with theorems checking the natural-language specification
against it.

The exported function is `(env, argv) => { ... }`.  JavaScript values that can
flow into `argv.mode` are modelled by the inductive type `JSValue` with JS
truthiness; `argv` itself is an `Option` (absent / present).  Node's
`path.resolve(__dirname, rel)` is modelled by `pathResolve`, parameterised by
the process working directory `cwd` and the configuration file's directory
`dirname` (the value of `__dirname`), so that independence from the working
directory is provable rather than assumed.  The single `console.log` call is
modelled by returning the list of emitted log lines alongside the
configuration value.
-/

/-- A JavaScript value, covering the primitive shapes that can reach
`argv.mode`.  Numbers are modelled as integers (the file never does number
arithmetic, and no claim involves non-integer numbers). -/
inductive JSValue where
  | undefined
  | null
  | bool (b : Bool)
  | num (n : Int)
  | str (s : String)
deriving Repr, DecidableEq

/-- JavaScript truthiness, as used by `if (argv && argv.mode)`:
`undefined`, `null`, `false`, `0` and `""` are falsy, everything else truthy. -/
def JSValue.truthy : JSValue → Bool
  | .undefined => false
  | .null => false
  | .bool b => b
  | .num n => n != 0
  | .str s => s != ""

/-- String conversion as performed by the template literal
`` `Building ${mode}...` ``. -/
def JSValue.toDisplayString : JSValue → String
  | .undefined => "undefined"
  | .null => "null"
  | .bool b => if b then "true" else "false"
  | .num n => toString n
  | .str s => s

/-- The `argv` object handed to the configuration function by webpack; the
only property the file reads is `mode` (an absent property reads as
`JSValue.undefined`). -/
structure Argv where
  mode : JSValue
deriving Repr, DecidableEq

/-- POSIX absolute-path test: a path is absolute iff it starts with `/`.
This is the rule `path.resolve` uses to decide whether a segment resets
resolution. -/
def isAbsolute (p : String) : Bool :=
  p.data.head? == some '/'

/-- Model of Node's two-argument `path.resolve(dir, rel)` for the argument
shapes occurring in `webpack.config.js`: if `rel` is absolute it stands alone;
otherwise, if `dir` is absolute, the result is `dir ++ "/" ++ rel`; otherwise
both are resolved against the process working directory `cwd`.  Path
normalization (collapsing `.` and `..` segments) is not modelled; the only
`..` in the file is the crate directory `path.resolve(__dirname, "..")`, and
no claim depends on its normalized value. -/
def pathResolve (cwd dir rel : String) : String :=
  if isAbsolute rel then rel
  else if isAbsolute dir then dir ++ "/" ++ rel
  else cwd ++ "/" ++ dir ++ "/" ++ rel

/-- The mode-selection logic of lines 8-11:
`let mode = "production"; if (argv && argv.mode) { mode = argv.mode; }`. -/
def selectMode (argv : Option Argv) : JSValue :=
  match argv with
  | none => JSValue.str "production"
  | some a => if a.mode.truthy then a.mode else JSValue.str "production"

/-- A plugin activation appearing in the `plugins` array: either
`new CleanWebpackPlugin()` or `new WasmPackPlugin({...})` with its three
configured options. -/
inductive Plugin where
  | cleanWebpackPlugin
  | wasmPackPlugin (crateDirectory : String) (outName : String)
      (forceMode : JSValue)
deriving Repr, DecidableEq

/-- The `output` object of the returned configuration. -/
structure Output where
  path : String
  filename : String
  chunkFilename : String
  jsonpFunction : String
deriving Repr, DecidableEq

/-- The configuration object returned by the exported function.  `entry` is
kept as an ordered association list of (bundle name, resolved path). -/
structure WebpackConfig where
  entry : List (String × String)
  output : Output
  mode : JSValue
  plugins : List Plugin
deriving Repr, DecidableEq

/-- The exported configuration function (`module.exports = (env, argv) => ...`).
`cwd` is the process working directory and `dirname` the directory containing
the configuration file (`__dirname`); both are ambient in Node and explicit
here.  The first component of the result is the list of log lines emitted by
the function itself (one `console.log` call), the second the returned
configuration object. -/
def webpackConfig (cwd dirname : String) (env : JSValue) (argv : Option Argv) :
    List String × WebpackConfig :=
  let mode := selectMode argv
  (["Building " ++ mode.toDisplayString ++ "..."],
   { entry := [("ruffle", pathResolve cwd dirname "js/index.js"),
               ("popup", pathResolve cwd dirname "js/popup.js")],
     output := { path := pathResolve cwd dirname "build/dist",
                 filename := "[name].js",
                 chunkFilename := "core.ruffle.js",
                 jsonpFunction := "RufflePlayerExtensionLoader" },
     mode := mode,
     plugins := [Plugin.cleanWebpackPlugin,
                 Plugin.wasmPackPlugin (pathResolve cwd dirname "..")
                   "ruffle" mode] })

/-- `s` ends with the path fragment `suffix` (on the underlying character
lists). -/
def endsWithPath (s suffix : String) : Prop :=
  ∃ pre, pre ++ suffix.data = s.data

theorem isAbsolute_head (p : String) (h : isAbsolute p = true) :
    ∃ rest, p.data = '/' :: rest := by
  unfold isAbsolute at h
  cases hd : p.data with
  | nil => rw [hd] at h; simp at h
  | cons c cs =>
    rw [hd] at h
    simp only [List.head?_cons, beq_iff_eq, Option.some.injEq] at h
    subst h
    exact ⟨cs, rfl⟩

theorem isAbsolute_append (p q : String) (h : isAbsolute p = true) :
    isAbsolute (p ++ q) = true := by
  obtain ⟨rest, hp⟩ := isAbsolute_head p h
  unfold isAbsolute
  rw [String.data_append, hp]
  rfl

theorem pathResolve_abs_dir (cwd dir rel : String)
    (hd : isAbsolute dir = true) (hr : isAbsolute rel = false) :
    pathResolve cwd dir rel = dir ++ "/" ++ rel := by
  unfold pathResolve
  rw [hr, hd]
  rfl

theorem pathResolve_cwd_irrelevant (c c' dir rel : String)
    (hd : isAbsolute dir = true) (hr : isAbsolute rel = false) :
    pathResolve c dir rel = pathResolve c' dir rel := by
  rw [pathResolve_abs_dir c dir rel hd hr, pathResolve_abs_dir c' dir rel hd hr]

theorem endsWithPath_append (dir rel : String) :
    endsWithPath (dir ++ ("/") ++ rel) rel := by
  refine ⟨dir.data ++ ("/").data, ?_⟩
  rw [String.data_append, String.data_append]

theorem pathResolve_absolute (cwd dir rel : String)
    (hd : isAbsolute dir = true) (hr : isAbsolute rel = false) :
    isAbsolute (pathResolve cwd dir rel) = true := by
  rw [pathResolve_abs_dir cwd dir rel hd hr]
  exact isAbsolute_append _ _ (isAbsolute_append _ _ hd)

theorem pathResolve_endsWith (cwd dir rel : String)
    (hd : isAbsolute dir = true) (hr : isAbsolute rel = false) :
    endsWithPath (pathResolve cwd dir rel) rel := by
  rw [pathResolve_abs_dir cwd dir rel hd hr]
  exact endsWithPath_append dir rel

/-- C1: for every invocation where `argv.mode` is a non-empty string, the
`mode` field of the returned configuration equals that string exactly. -/
theorem c1_mode_passthrough (cwd dirname : String) (env : JSValue)
    (s : String) (h : s ≠ "") :
    ((webpackConfig cwd dirname env (some ⟨JSValue.str s⟩)).2).mode
      = JSValue.str s := by
  simp [webpackConfig, selectMode, JSValue.truthy, h]

theorem c1_mode_passthrough_witness :
    ((webpackConfig ("/cwd") ("/repo/web/extension") JSValue.undefined
        (some ⟨JSValue.str ("development")⟩)).2).mode
      = JSValue.str ("development") :=
  c1_mode_passthrough ("/cwd") ("/repo/web/extension") JSValue.undefined
    ("development") (by decide)

/-- C2: when `argv` is absent, or `argv.mode` is absent or the empty string,
the `mode` field of the returned configuration equals "production". -/
theorem c2_mode_default_production (cwd dirname : String) (env : JSValue)
    (argv : Option Argv)
    (h : argv = none ∨ argv = some ⟨JSValue.undefined⟩ ∨
         argv = some ⟨JSValue.str ""⟩) :
    ((webpackConfig cwd dirname env argv).2).mode
      = JSValue.str ("production") := by
  rcases h with h | h | h <;> subst h <;> rfl

theorem c2_mode_default_production_witness :
    ((webpackConfig ("/cwd") ("/repo/web/extension") JSValue.undefined
        none).2).mode = JSValue.str ("production") :=
  c2_mode_default_production ("/cwd") ("/repo/web/extension") JSValue.undefined
    none (Or.inl rfl)

/-- C3: for every input, the plugins list has exactly two elements in fixed
order, a CleanWebpackPlugin activation first and a WasmPackPlugin activation
second, and the second plugin's `forceMode` equals the configuration's own
`mode` field. -/
theorem c3_plugins_fixed (cwd dirname : String) (env : JSValue)
    (argv : Option Argv) :
    ((webpackConfig cwd dirname env argv).2).plugins.length = 2 ∧
      ((webpackConfig cwd dirname env argv).2).plugins
        = [Plugin.cleanWebpackPlugin,
           Plugin.wasmPackPlugin (pathResolve cwd dirname ("..")) ("ruffle")
             ((webpackConfig cwd dirname env argv).2).mode] :=
  ⟨rfl, rfl⟩

/-- C4: for every input and regardless of the process working directory, the
entry map has exactly the two bundle names "ruffle" and "popup", whose values
are absolute paths ending with the fixed fragments js/index.js and
js/popup.js, resolved relative to the configuration file's own directory. -/
theorem c4_entry_fixed (cwd cwd' dirname : String) (env : JSValue)
    (argv : Option Argv) (habs : isAbsolute dirname = true) :
    ∃ v₁ v₂,
      ((webpackConfig cwd dirname env argv).2).entry
          = [(("ruffle" : String), v₁), (("popup" : String), v₂)] ∧
        isAbsolute v₁ = true ∧ endsWithPath v₁ ("js/index.js") ∧
        isAbsolute v₂ = true ∧ endsWithPath v₂ ("js/popup.js") ∧
        ((webpackConfig cwd' dirname env argv).2).entry
          = ((webpackConfig cwd dirname env argv).2).entry := by
  refine ⟨pathResolve cwd dirname ("js/index.js"),
          pathResolve cwd dirname ("js/popup.js"), rfl,
          pathResolve_absolute cwd dirname _ habs (by decide),
          pathResolve_endsWith cwd dirname _ habs (by decide),
          pathResolve_absolute cwd dirname _ habs (by decide),
          pathResolve_endsWith cwd dirname _ habs (by decide), ?_⟩
  show [(("ruffle" : String), pathResolve cwd' dirname ("js/index.js")),
        (("popup" : String), pathResolve cwd' dirname ("js/popup.js"))]
      = [(("ruffle" : String), pathResolve cwd dirname ("js/index.js")),
         (("popup" : String), pathResolve cwd dirname ("js/popup.js"))]
  rw [pathResolve_cwd_irrelevant cwd' cwd dirname ("js/index.js") habs (by decide),
      pathResolve_cwd_irrelevant cwd' cwd dirname ("js/popup.js") habs (by decide)]

theorem c4_entry_fixed_witness :
    ∃ v₁ v₂,
      ((webpackConfig ("/cwd") ("/repo/web/extension") JSValue.undefined
          none).2).entry
          = [(("ruffle" : String), v₁), (("popup" : String), v₂)] ∧
        isAbsolute v₁ = true ∧ endsWithPath v₁ ("js/index.js") ∧
        isAbsolute v₂ = true ∧ endsWithPath v₂ ("js/popup.js") ∧
        ((webpackConfig ("/other") ("/repo/web/extension") JSValue.undefined
            none).2).entry
          = ((webpackConfig ("/cwd") ("/repo/web/extension") JSValue.undefined
              none).2).entry :=
  c4_entry_fixed ("/cwd") ("/other") ("/repo/web/extension") JSValue.undefined
    none (by decide)

/-- C5: the output descriptor is constant: build/dist under the configuration
file's directory, filename pattern "[name].js", chunk filename
"core.ruffle.js" and jsonpFunction "RufflePlayerExtensionLoader", identical
across all inputs and independent of mode, env and the working directory. -/
theorem c5_output_constant (cwd cwd' dirname : String) (env env' : JSValue)
    (argv argv' : Option Argv) (habs : isAbsolute dirname = true) :
    ((webpackConfig cwd dirname env argv).2).output
        = { path := dirname ++ ("/") ++ ("build/dist"),
            filename := ("[name].js"),
            chunkFilename := ("core.ruffle.js"),
            jsonpFunction := ("RufflePlayerExtensionLoader") } ∧
      ((webpackConfig cwd' dirname env' argv').2).output
        = ((webpackConfig cwd dirname env argv).2).output := by
  constructor
  · show Output.mk (pathResolve cwd dirname ("build/dist")) _ _ _ = _
    rw [pathResolve_abs_dir cwd dirname ("build/dist") habs (by decide)]
  · show Output.mk (pathResolve cwd' dirname ("build/dist")) _ _ _
        = Output.mk (pathResolve cwd dirname ("build/dist")) _ _ _
    rw [pathResolve_cwd_irrelevant cwd' cwd dirname ("build/dist") habs
      (by decide)]

theorem c5_output_constant_witness :
    ((webpackConfig ("/cwd") ("/repo/web/extension") JSValue.undefined
        none).2).output
        = { path := ("/repo/web/extension") ++ ("/") ++ ("build/dist"),
            filename := ("[name].js"),
            chunkFilename := ("core.ruffle.js"),
            jsonpFunction := ("RufflePlayerExtensionLoader") } ∧
      ((webpackConfig ("/other") ("/repo/web/extension") (JSValue.num 3)
          (some ⟨JSValue.str ("development")⟩)).2).output
        = ((webpackConfig ("/cwd") ("/repo/web/extension") JSValue.undefined
            none).2).output :=
  c5_output_constant ("/cwd") ("/other") ("/repo/web/extension")
    JSValue.undefined (JSValue.num 3) none
    (some ⟨JSValue.str ("development")⟩) (by decide)

/-- C6: invoking with argv carrying mode "development" yields mode
"development", the two entries ruffle and popup mapped to absolute paths
ending in js/index.js and js/popup.js, and a second plugin carrying forced
mode "development". -/
theorem c6_development_example (cwd dirname : String) (env : JSValue)
    (habs : isAbsolute dirname = true) :
    ∃ v₁ v₂,
      ((webpackConfig cwd dirname env
            (some ⟨JSValue.str ("development")⟩)).2).mode
          = JSValue.str ("development") ∧
        ((webpackConfig cwd dirname env
            (some ⟨JSValue.str ("development")⟩)).2).entry
          = [(("ruffle" : String), v₁), (("popup" : String), v₂)] ∧
        isAbsolute v₁ = true ∧ endsWithPath v₁ ("js/index.js") ∧
        isAbsolute v₂ = true ∧ endsWithPath v₂ ("js/popup.js") ∧
        ((webpackConfig cwd dirname env
              (some ⟨JSValue.str ("development")⟩)).2).plugins.get? 1
          = some (Plugin.wasmPackPlugin (pathResolve cwd dirname (".."))
              ("ruffle") (JSValue.str ("development"))) := by
  exact ⟨pathResolve cwd dirname ("js/index.js"),
         pathResolve cwd dirname ("js/popup.js"), rfl, rfl,
         pathResolve_absolute cwd dirname _ habs (by decide),
         pathResolve_endsWith cwd dirname _ habs (by decide),
         pathResolve_absolute cwd dirname _ habs (by decide),
         pathResolve_endsWith cwd dirname _ habs (by decide), rfl⟩

theorem c6_development_example_witness :
    ∃ v₁ v₂,
      ((webpackConfig ("/cwd") ("/repo/web/extension") JSValue.undefined
            (some ⟨JSValue.str ("development")⟩)).2).mode
          = JSValue.str ("development") ∧
        ((webpackConfig ("/cwd") ("/repo/web/extension") JSValue.undefined
            (some ⟨JSValue.str ("development")⟩)).2).entry
          = [(("ruffle" : String), v₁), (("popup" : String), v₂)] ∧
        isAbsolute v₁ = true ∧ endsWithPath v₁ ("js/index.js") ∧
        isAbsolute v₂ = true ∧ endsWithPath v₂ ("js/popup.js") ∧
        ((webpackConfig ("/cwd") ("/repo/web/extension") JSValue.undefined
              (some ⟨JSValue.str ("development")⟩)).2).plugins.get? 1
          = some (Plugin.wasmPackPlugin
              (pathResolve ("/cwd") ("/repo/web/extension") (".."))
              ("ruffle") (JSValue.str ("development"))) :=
  c6_development_example ("/cwd") ("/repo/web/extension") JSValue.undefined
    (by decide)

/-- C7: the function is deterministic: any two invocations with the same
working directory, configuration-file directory, env and argv return equal
(log, configuration) results. -/
theorem c7_deterministic (cwd dirname : String) (env : JSValue)
    (argv : Option Argv) (r₁ r₂ : List String × WebpackConfig)
    (h₁ : r₁ = webpackConfig cwd dirname env argv)
    (h₂ : r₂ = webpackConfig cwd dirname env argv) : r₁ = r₂ :=
  h₁.trans h₂.symm

theorem c7_deterministic_witness :
    webpackConfig ("/cwd") ("/repo/web/extension") JSValue.undefined none
      = webpackConfig ("/cwd") ("/repo/web/extension") JSValue.undefined
          none :=
  c7_deterministic ("/cwd") ("/repo/web/extension") JSValue.undefined none
    _ _ rfl rfl

/-- C8: the function is total and never fails: for every input, including
arbitrary or malformed `argv.mode` values, it returns (without any error
path) exactly the configuration object described by the source, whose mode is
`selectMode argv`. -/
theorem c8_total_no_failure (cwd dirname : String) (env : JSValue)
    (argv : Option Argv) :
    webpackConfig cwd dirname env argv
      = (["Building " ++ (selectMode argv).toDisplayString ++ ("...")],
         { entry := [(("ruffle" : String),
                      pathResolve cwd dirname ("js/index.js")),
                     (("popup" : String),
                      pathResolve cwd dirname ("js/popup.js"))],
           output := { path := pathResolve cwd dirname ("build/dist"),
                       filename := ("[name].js"),
                       chunkFilename := ("core.ruffle.js"),
                       jsonpFunction := ("RufflePlayerExtensionLoader") },
           mode := selectMode argv,
           plugins := [Plugin.cleanWebpackPlugin,
                       Plugin.wasmPackPlugin (pathResolve cwd dirname (".."))
                         ("ruffle") (selectMode argv)] }) :=
  rfl

/-- C9: on every invocation the function emits exactly one log line, the
string "Building <mode>..." naming the selected mode. -/
theorem c9_single_log (cwd dirname : String) (env : JSValue)
    (argv : Option Argv) :
    (webpackConfig cwd dirname env argv).1
        = [("Building ")
            ++ ((webpackConfig cwd dirname env argv).2).mode.toDisplayString
            ++ ("...")] ∧
      (webpackConfig cwd dirname env argv).1.length = 1 :=
  ⟨rfl, rfl⟩

/-- C10: the env parameter is entirely ignored: for every argv and any two
env values, the results of the two invocations are equal. -/
theorem c10_env_noninterference (cwd dirname : String) (argv : Option Argv)
    (e₁ e₂ : JSValue) :
    webpackConfig cwd dirname e₁ argv = webpackConfig cwd dirname e₂ argv :=
  rfl
